import Mathlib

/-!
Verification of the SSBot receipt-relay bot.

The repository contains four near-duplicate variants of a Telegram
receipt-relay bot:
 - `bot.js` (first program): the Supabase variant, with persistence of
   receipts and of the connected-group setting, MarkdownV2 escaping, and a
   date-bucketed receipt browser.  Modelled below in namespace `BotJs`.
 - `bot.js` (second program after the document separator): a minimal
   in-memory variant, not cited by any claim.
 - `src/unnamed/part_000`: a file-backed variant without escaping,
   modelled in namespace `Part000`.
 - `src/unnamed/part_001`: a file-backed variant with a MarkdownV2
   escaping function whose character class omits the square brackets,
   modelled in namespace `Part001`.

JavaScript strings are modelled as Lean `String`, nullable values as
`Option`, machine numbers (user ids, epoch timestamps) as `Int`.
Timestamps are epoch milliseconds (UTC); the `moment-timezone` rendering
in the fixed zone `Asia/Yangon` is modelled as a fixed UTC+06:30 offset,
which is exact for every instant after 1945 and hence for all data this
bot handles.  Calendar conversion uses the standard proleptic-Gregorian
civil-from-days / days-from-civil algorithms.  Fallible external calls
(database writes, inserts, photo sends) are modelled by explicit outcome
parameters, and each handler returns its new state together with the
ordered list of external effects it performed.
-/

/-- The backslash character, code 92. -/
def backslashChar : Char := Char.ofNat 92

/-- Reserved characters of the target markup renderer (Telegram MarkdownV2):
`_` (95), `*` (42), `[` (91), `]` (93), `(` (40), `)` (41), `~` (126),
backquote (96), `>` (62), `#` (35), `+` (43), `-` (45), `=` (61), `|` (124),
left brace (123), right brace (125), `.` (46), `!` (33). -/
def reservedMd2Chars : List Char :=
  [Char.ofNat 95, Char.ofNat 42, Char.ofNat 91, Char.ofNat 93,
   Char.ofNat 40, Char.ofNat 41, Char.ofNat 126, Char.ofNat 96,
   Char.ofNat 62, Char.ofNat 35, Char.ofNat 43, Char.ofNat 45,
   Char.ofNat 61, Char.ofNat 124, Char.ofNat 123, Char.ofNat 125,
   Char.ofNat 46, Char.ofNat 33]

/-- Whether `c` is a reserved MarkdownV2 character. -/
def reservedMd2 (c : Char) : Bool := decide (c ∈ reservedMd2Chars)

/-- Scan of a character list: every reserved character must be immediately
preceded by a backslash.  `prev` is the character before the current head. -/
def noUnescapedAuxMd2 (prev : Char) : List Char → Bool
  | [] => true
  | c :: rest => (!reservedMd2 c || prev == backslashChar) && noUnescapedAuxMd2 c rest

/-- No unescaped reserved MarkdownV2 character: the first character must not
be reserved (nothing precedes it), and every later reserved character must be
immediately preceded by a backslash. -/
def noUnescapedMd2 : List Char → Bool
  | [] => true
  | c :: rest => !reservedMd2 c && noUnescapedAuxMd2 c rest

/-- Core of `text.replace(/([...])/g, "\\$1")`: a global single-character-class
replace prepends one backslash to every character of the class `escSet`. -/
def escapeBody (escSet : List Char) : List Char → List Char
  | [] => []
  | c :: cs => (if c ∈ escSet then [backslashChar, c] else [c]) ++ escapeBody escSet cs

namespace BotJs

/-- The character class of the `bot.js` `escapeMarkdown` regex
`([_*\[\]()~`>#+\-=|{}.!\\])`: exactly the 18 reserved MarkdownV2 characters
followed by the backslash (92). -/
def escapeChars : List Char := reservedMd2Chars ++ [backslashChar]

/-- `escapeMarkdown` of `bot.js`: `if (!text) return ""` (null, undefined and
the empty string are falsy), else the global backslash-prepending replace. -/
def escapeMarkdown (text : Option String) : String :=
  match text with
  | none => ""
  | some s => if s = "" then "" else String.mk (escapeBody escapeChars s.data)

end BotJs

namespace Part001

/-- The character class of the `part_001` `escapeMarkdown` regex
`([_*()~`>#+\-=|{}.!\\])`: the reserved characters WITHOUT `[` (91) and
`]` (93), followed by the backslash (92). -/
def escapeChars : List Char :=
  [Char.ofNat 95, Char.ofNat 42,
   Char.ofNat 40, Char.ofNat 41, Char.ofNat 126, Char.ofNat 96,
   Char.ofNat 62, Char.ofNat 35, Char.ofNat 43, Char.ofNat 45,
   Char.ofNat 61, Char.ofNat 124, Char.ofNat 123, Char.ofNat 125,
   Char.ofNat 46, Char.ofNat 33, backslashChar]

/-- `escapeMarkdown` of `part_001`: same shape as the `bot.js` one but with
the smaller character class. -/
def escapeMarkdown (text : Option String) : String :=
  match text with
  | none => ""
  | some s => if s = "" then "" else String.mk (escapeBody escapeChars s.data)

end Part001

/-- Asia/Yangon offset from UTC, +06:30, in milliseconds. -/
def yangonOffsetMs : Int := 23400000

/-- Moment.js two-digit-year rule: `year + (year > 68 ? 1900 : 2000)`. -/
def momentTwoDigitYear (yy : Nat) : Int :=
  if yy > 68 then 1900 + (yy : Int) else 2000 + (yy : Int)

/-- Days since 1970-01-01 of the proleptic-Gregorian civil date (y, m, d)
(standard civil-from-days companion algorithm, floor division). -/
def daysFromCivil (y : Int) (m d : Nat) : Int :=
  let yAdj : Int := if m ≤ 2 then y - 1 else y
  let era : Int := yAdj.fdiv 400
  let yoe : Nat := (yAdj - era * 400).toNat
  let mp : Nat := if m ≤ 2 then m + 9 else m - 3
  let doy : Nat := (153 * mp + 2) / 5 + d - 1
  let doe : Nat := yoe * 365 + yoe / 4 - yoe / 100 + doy
  era * 146097 + (doe : Int) - 719468

/-- Civil date (year, month, day) of a day count since 1970-01-01
(standard civil-from-days algorithm, floor division). -/
def civilFromDays (z : Int) : Int × Nat × Nat :=
  let zShift : Int := z + 719468
  let era : Int := zShift.fdiv 146097
  let doe : Nat := (zShift - era * 146097).toNat
  let yoe : Nat := (doe - doe / 1460 + doe / 36524 - doe / 146096) / 365
  let y : Int := (yoe : Int) + era * 400
  let doy : Nat := doe - (365 * yoe + yoe / 4 - yoe / 100)
  let mp : Nat := (5 * doy + 2) / 153
  let d : Nat := doy - (153 * mp + 2) / 5 + 1
  let m : Nat := if mp < 10 then mp + 3 else mp - 9
  (if m ≤ 2 then y + 1 else y, m, d)

/-- Two-digit zero padding, as in moment's `DD`, `MM`, `YY`, `HH`, `mm`, `ss`. -/
def pad2 (n : Nat) : String := if n < 10 then ("0") ++ toString n else toString n

/-- Render a civil date as `DD/MM/YY`. -/
def formatDDMMYY (c : Int × Nat × Nat) : String :=
  pad2 c.2.2 ++ ("/") ++ pad2 c.2.1 ++ ("/") ++ pad2 (c.1.emod 100).toNat

/-- `moment(t).tz("Asia/Yangon").format("DD/MM/YY")` on an epoch-millisecond
timestamp: shift into the fixed +06:30 zone, take the civil day, render it. -/
def dateKey (t : Int) : String :=
  formatDDMMYY (civilFromDays ((t + yangonOffsetMs).fdiv 86400000))

/-- `moment(t).tz("Asia/Yangon").format("DD/MM/YY HH:mm:ss")`. -/
def formatDateTimeYangon (t : Int) : String :=
  let loc : Int := t + yangonOffsetMs
  let day : Int := loc.fdiv 86400000
  let rem : Nat := (loc - day * 86400000).toNat / 1000
  formatDDMMYY (civilFromDays day) ++ (" ") ++
    pad2 (rem / 3600) ++ (":") ++ pad2 (rem % 3600 / 60) ++ (":") ++ pad2 (rem % 60)

/-- Telegram sender identity (`ctx.from`). -/
structure UserInfo where
  id : Int
  first_name : Option String
  last_name : Option String
  username : Option String
deriving DecidableEq, Repr

/-- A row of the `receipts` table. -/
structure Receipt where
  user_id : Int
  first_name : Option String
  last_name : Option String
  username : Option String
  receipt_file_id : String
  receipt_caption : Option String
  received_at : Int
deriving DecidableEq, Repr

/-- External effects a handler can perform, in order of occurrence:
a text reply to the current chat, an attempted insert into the `receipts`
table (with its outcome), an attempted `sendPhoto` to a chat (with its
outcome), and a write of the connection file (`part_000`/`part_001`). -/
inductive Eff where
  | reply (msg : String)
  | insertReceipt (r : Receipt) (ok : Bool)
  | sendPhoto (chat : String) (fileId : String) (caption : String) (ok : Bool)
  | writeConn (groupId : Option String)
deriving DecidableEq, Repr

/-- Outcome of the Supabase upsert in `saveConnection`: success, an error
value returned by the client, or a thrown exception. -/
inductive WriteOutcome where
  | ok
  | dbError
  | thrown
deriving DecidableEq, Repr

/-- State of the Supabase variant: the module-level `connectedGroupId`
variable and the contents of the `receipts` table. -/
structure BotState where
  connectedGroupId : Option String
  receipts : List Receipt
deriving DecidableEq, Repr

/-- Inbound events of the Supabase variant.  Fallible external calls carry
their outcome: `writeOutcome` for the settings upsert, `insertOk` for the
receipts insert, `sendOk` for the group `sendPhoto`.  `t` is the event's
epoch-millisecond timestamp (`moment().tz("Asia/Yangon")`). -/
inductive Event where
  | connectgp (sender : Int) (text : String) (w : WriteOutcome)
  | disconnect (sender : Int) (w : WriteOutcome)
  | photo (sender : UserInfo) (fileId : String) (caption : Option String)
      (t : Int) (insertOk : Bool) (sendOk : Bool)
deriving DecidableEq, Repr

/-- Reply sent when a photo arrives and no group is connected. -/
def notConnectedMsg : String := "❌ Bot not connected to any group."

/-- Acknowledgement sent to the user after a receipt is handled. -/
def ackMsg : String := "ပြေစာအားလက်ခံရရှိပါတယ် ကျေးဇူးတင်ပါတယ်ခင်ဗျ။"

/-- Reply sent by the Supabase variant when the receipts insert fails. -/
def persistErrorMsg : String := "Error processing your receipt. Please try again."

/-- Usage reply of `/connectgp` without arguments. -/
def usageMsg : String := "Usage: /connectgp <group_id | @username>"

/-- A one-character string holding the backquote (96). -/
def backtickStr : String := String.singleton (Char.ofNat 96)

/-- `ctx.message.text.split(" ").slice(1).join(" ")`. -/
def parseArgs (text : String) : String :=
  (" ").intercalate ((text.splitOn (" ")).drop 1)

/-- The receipt row the Supabase photo handler inserts. -/
def mkReceipt (u : UserInfo) (fileId : String) (userCaption : Option String)
    (t : Int) : Receipt :=
  { user_id := u.id, first_name := u.first_name, last_name := u.last_name,
    username := u.username, receipt_file_id := fileId,
    receipt_caption := userCaption, received_at := t }

namespace BotJs

/-- The group caption built inline by the `bot.js` photo handler, with every
user-controlled field passed through `escapeMarkdown`. -/
def buildCaption (u : UserInfo) (t : Int) (userCaption : Option String) : String :=
  let name := escapeMarkdown (some ((u.first_name.getD ("")) ++ (" ") ++ (u.last_name.getD (""))))
  let uname := match u.username with
    | some un => ("@") ++ escapeMarkdown (some un)
    | none => "Not Available"
  let uid := escapeMarkdown (some (toString u.id))
  let timeStr := escapeMarkdown (some (formatDateTimeYangon t))
  let base :=
    ("*New Receipt Received*\n🚹: ") ++ name ++
    ("\n🔗: [Profile](tg://user?id=") ++ toString u.id ++
    (")\n👤: ") ++ uname ++
    ("\n🆔: ") ++ backtickStr ++ uid ++ backtickStr ++
    ("\n🗓️: ") ++ timeStr
  match userCaption with
  | some c => base ++ ("\n\n*User Caption:*\n") ++ escapeMarkdown (some c)
  | none => base

/-- `saveConnection` of `bot.js`: upsert the settings row; on a returned
error or a thrown exception return `false` without touching
`connectedGroupId`; on success set `connectedGroupId := groupId` and return
`true`.  Returns the success flag and the new `connectedGroupId`. -/
def saveConnection (w : WriteOutcome) (groupId cur : Option String) :
    Bool × Option String :=
  match w with
  | .ok => (true, groupId)
  | .dbError => (false, cur)
  | .thrown => (false, cur)

/-- The `isOwner` middleware: run `next` only when the sender id equals the
configured owner id; otherwise do nothing (the non-owner reply is commented
out in the source). -/
def isOwnerGate (ownerId senderId : Int) (next : BotState → BotState × List Eff)
    (st : BotState) : BotState × List Eff :=
  if senderId = ownerId then next st else (st, [])

/-- Body of the `/connectgp` handler (after the owner gate). -/
def connectgpBody (text : String) (w : WriteOutcome) (st : BotState) :
    BotState × List Eff :=
  let args := parseArgs text
  if args = "" then (st, [Eff.reply usageMsg])
  else
    let res := saveConnection w (some args) st.connectedGroupId
    if res.1 then
      ({ st with connectedGroupId := res.2 },
       [Eff.reply (("✅ Connected to group and saved to DB: ") ++ args)])
    else
      ({ st with connectedGroupId := res.2 },
       [Eff.reply ("❌ Failed to save connection to DB.")])

/-- Body of the `/disconnect` handler (after the owner gate). -/
def disconnectBody (w : WriteOutcome) (st : BotState) : BotState × List Eff :=
  let res := saveConnection w none st.connectedGroupId
  if res.1 then
    ({ st with connectedGroupId := res.2 },
     [Eff.reply ("❌ Disconnected from group and updated DB.")])
  else
    ({ st with connectedGroupId := res.2 },
     [Eff.reply ("❌ Failed to update connection in DB.")])

/-- The `bot.on("photo")` handler of `bot.js`: reply not-connected when no
group is set; otherwise insert the receipt row (on failure reply with the
error message and stop), then send the captioned photo to the group, then
acknowledge the sender (on send failure do neither of the last two replies:
the catch block only logs). -/
def photoHandler (u : UserInfo) (fileId : String) (userCaption : Option String)
    (t : Int) (insertOk sendOk : Bool) (st : BotState) : BotState × List Eff :=
  match st.connectedGroupId with
  | none => (st, [Eff.reply notConnectedMsg])
  | some g =>
    let rcpt := mkReceipt u fileId userCaption t
    if insertOk then
      let st2 : BotState := { st with receipts := st.receipts ++ [rcpt] }
      let cap := buildCaption u t userCaption
      if sendOk then
        (st2, [Eff.insertReceipt rcpt true, Eff.sendPhoto g fileId cap true,
               Eff.reply ackMsg])
      else
        (st2, [Eff.insertReceipt rcpt true, Eff.sendPhoto g fileId cap false])
    else
      (st, [Eff.insertReceipt rcpt false, Eff.reply persistErrorMsg])

/-- One event step of the Supabase variant. -/
def step (ownerId : Int) (st : BotState) : Event → BotState × List Eff
  | .connectgp s text w => isOwnerGate ownerId s (connectgpBody text w) st
  | .disconnect s w => isOwnerGate ownerId s (disconnectBody w) st
  | .photo u f c t iok sok => photoHandler u f c t iok sok st

/-- Run a list of events, returning the final state and, per event, the
effect list it produced. -/
def run (ownerId : Int) (st : BotState) :
    List Event → BotState × List (Event × List Eff)
  | [] => (st, [])
  | e :: es =>
    let r := step ownerId st e
    let rest := run ownerId r.1 es
    (rest.1, (e, r.2) :: rest.2)

end BotJs

/-- Whether an event is a `/connectgp` that actually connects: owner sender,
non-empty argument, successful settings write. -/
def connectSucceeds (ownerId : Int) : Event → Bool
  | .connectgp s text w => s = ownerId && parseArgs text ≠ "" && w = WriteOutcome.ok
  | _ => false

/-- Whether an event is a photo event. -/
def isPhotoEvent : Event → Bool
  | .photo _ _ _ _ _ _ => true
  | _ => false

/-- Whether an effect list contains a `sendPhoto` (attempted forward). -/
def hasSendPhoto (effs : List Eff) : Bool :=
  effs.any fun e => match e with
    | .sendPhoto _ _ _ _ => true
    | _ => false

/-- Whether an effect list contains a reply to the current chat. -/
def hasReply (effs : List Eff) : Bool :=
  effs.any fun e => match e with
    | .reply _ => true
    | _ => false

namespace Part000

/-- `/connectgp` of `part_000`: silent early return for non-owners; usage
reply without arguments; otherwise set the in-memory variable, write the
connection file, reply. -/
def connectgp (ownerId senderId : Int) (text : String) (st : Option String) :
    Option String × List Eff :=
  if senderId ≠ ownerId then (st, [])
  else
    let args := parseArgs text
    if args = "" then (st, [Eff.reply usageMsg])
    else (some args, [Eff.writeConn (some args),
                      Eff.reply (("✅ Connected to group: ") ++ args)])

/-- `/disconnect` of `part_000`: silent early return for non-owners;
otherwise clear the in-memory variable, write the file, reply. -/
def disconnect (ownerId senderId : Int) (st : Option String) :
    Option String × List Eff :=
  if senderId ≠ ownerId then (st, [])
  else (none, [Eff.writeConn none, Eff.reply ("❌ Disconnected from group.")])

end Part000

namespace Part001

/-- The caption built by the `part_001` photo handler (includes a phone line
and no user-caption section; fields escaped with this variant's
`escapeMarkdown`). -/
def buildCaption (u : UserInfo) (t : Int) : String :=
  let name := escapeMarkdown (some ((u.first_name.getD ("")) ++ (" ") ++ (u.last_name.getD (""))))
  let uname := match u.username with
    | some un => ("@") ++ escapeMarkdown (some un)
    | none => "Not Available"
  let uid := escapeMarkdown (some (toString u.id))
  let timeStr := escapeMarkdown (some (formatDateTimeYangon t))
  ("*New Receipt Received*\n🚹: ") ++ name ++
  ("\n🔗: [Profile](tg://user?id=") ++ toString u.id ++
  (")\n👤: ") ++ uname ++
  ("\n📞: Not Available\n🆔: ") ++ backtickStr ++ uid ++ backtickStr ++
  ("\n🗓️: ") ++ timeStr

/-- The `bot.on("photo")` handler of `part_001`: reply not-connected when no
group is set; otherwise reply the acknowledgement to the sender FIRST, then
attempt the group `sendPhoto` (no persistence; a send failure is only
logged). -/
def photoHandler (u : UserInfo) (fileId : String) (t : Int) (sendOk : Bool)
    (st : Option String) : Option String × List Eff :=
  match st with
  | none => (none, [Eff.reply notConnectedMsg])
  | some g =>
    let cap := buildCaption u t
    (some g, [Eff.reply ackMsg, Eff.sendPhoto g fileId cap sendOk])

end Part001

/-- `uniqueDates` of the `/receipt` command: map every stored `received_at`
to its Yangon `DD/MM/YY` key and deduplicate preserving first-occurrence
order (JS `Set` insertion order). -/
def uniqueDates (rs : List Receipt) : List String :=
  rs.foldl
    (fun acc r =>
      if dateKey r.received_at ∈ acc then acc else acc ++ [dateKey r.received_at])
    []

/-- Ascending order on receipts by `received_at` (the `order("received_at",
ascending)` of the date-detail query). -/
def byTime (a b : Receipt) : Prop := a.received_at ≤ b.received_at

instance : DecidableRel byTime :=
  fun a b => inferInstanceAs (Decidable (a.received_at ≤ b.received_at))

instance : IsTotal Receipt byTime := ⟨fun a b => Int.le_total a.received_at b.received_at⟩

instance : IsTrans Receipt byTime := ⟨fun _ _ _ hab hbc => le_trans hab hbc⟩

/-- Epoch milliseconds of `moment.tz(dateStr, "DD/MM/YY",
"Asia/Yangon").startOf("day")` for the key with day `d`, month `m`,
two-digit year `yy`. -/
def dayStartMs (d m yy : Nat) : Int :=
  daysFromCivil (momentTwoDigitYear yy) m d * 86400000 - yangonOffsetMs

/-- Epoch milliseconds of `.endOf("day")` for the same key: 23:59:59.999
local, i.e. day start plus 86399999 ms. -/
def dayEndMs (d m yy : Nat) : Int := dayStartMs d m yy + 86399999

/-- The date-detail query of the `receipt_date_` action handler: receipts
with `received_at` between the day's start and end (both inclusive, `gte` /
`lte`), ordered ascending by `received_at`; the handler then replays the
result list in order, one photo message per element. -/
def receiptDateFetch (db : List Receipt) (d m yy : Nat) : List Receipt :=
  List.insertionSort byTime
    (db.filter fun r =>
      decide (dayStartMs d m yy ≤ r.received_at ∧ r.received_at ≤ dayEndMs d m yy))

/-- Epoch milliseconds of 2024-01-05T10:00:00 at UTC+06:30 (Asia/Yangon). -/
def t20240105 : Int := daysFromCivil 2024 1 5 * 86400000 + 10 * 3600000 - yangonOffsetMs

/-- A sample receipt received at 2024-01-05T10:00:00 Asia/Yangon. -/
def sampleReceipt : Receipt :=
  { user_id := 1, first_name := some ("A"), last_name := none, username := none,
    receipt_file_id := "file1", receipt_caption := none, received_at := t20240105 }

/-- A sample sender. -/
def u0 : UserInfo := { id := 7, first_name := some ("Ann"), last_name := none, username := none }

/-- A sample connected state. -/
def st1 : BotState := { connectedGroupId := some ("g"), receipts := [] }

/-- A single-character string holding the left square bracket (91). -/
def lbString : String := String.mk [Char.ofNat 91]

/-- A sample photo event. -/
def ephoto0 : Event := Event.photo u0 ("f1") none 0 true true

theorem reservedMd2_backslash : reservedMd2 backslashChar = false := by decide

theorem escapeBody_aux_safe (escSet : List Char) (s : List Char) :
    (∀ c ∈ s, reservedMd2 c = true → c ∈ escSet) →
    ∀ p : Char, noUnescapedAuxMd2 p (escapeBody escSet s) = true := by
  induction s with
  | nil => intro _ _; rfl
  | cons c cs ih =>
    intro h p
    have hcs : ∀ x ∈ cs, reservedMd2 x = true → x ∈ escSet :=
      fun x hx => h x (List.mem_cons_of_mem _ hx)
    by_cases hc : c ∈ escSet
    · simp only [escapeBody, if_pos hc, List.cons_append, List.nil_append,
        noUnescapedAuxMd2, reservedMd2_backslash]
      simp [ih hcs c]
    · have hr : reservedMd2 c = false := by
        cases hrc : reservedMd2 c
        · rfl
        · exact absurd (h c (List.mem_cons_self c cs) hrc) hc
      simp only [escapeBody, if_neg hc, List.cons_append, List.nil_append,
        noUnescapedAuxMd2, hr]
      simp [ih hcs c]

theorem escapeBody_safe (escSet : List Char) (s : List Char)
    (h : ∀ c ∈ s, reservedMd2 c = true → c ∈ escSet) :
    noUnescapedMd2 (escapeBody escSet s) = true := by
  cases s with
  | nil => rfl
  | cons c cs =>
    have hcs : ∀ x ∈ cs, reservedMd2 x = true → x ∈ escSet :=
      fun x hx => h x (List.mem_cons_of_mem _ hx)
    by_cases hc : c ∈ escSet
    · simp only [escapeBody, if_pos hc, List.cons_append, List.nil_append,
        noUnescapedMd2, noUnescapedAuxMd2, reservedMd2_backslash]
      simp [escapeBody_aux_safe escSet cs hcs c]
    · have hr : reservedMd2 c = false := by
        cases hrc : reservedMd2 c
        · rfl
        · exact absurd (h c (List.mem_cons_self c cs) hrc) hc
      simp only [escapeBody, if_neg hc, List.cons_append, List.nil_append,
        noUnescapedMd2, hr]
      simp [escapeBody_aux_safe escSet cs hcs c]

theorem reservedMd2_mem_botjs (c : Char) (h : reservedMd2 c = true) :
    c ∈ BotJs.escapeChars :=
  List.mem_append_left _ (of_decide_eq_true h)

theorem reservedMd2_mem_p1 (c : Char) (h : reservedMd2 c = true)
    (h91 : c ≠ Char.ofNat 91) (h93 : c ≠ Char.ofNat 93) :
    c ∈ Part001.escapeChars := by
  have hm : c ∈ reservedMd2Chars := of_decide_eq_true h
  fin_cases hm <;> first
    | decide
    | exact absurd rfl h91
    | exact absurd rfl h93

/-- C1 (amended): for every input string, the `bot.js` escaping function
yields output in which every reserved MarkdownV2 character is immediately
preceded by a backslash; the `part_001` escaping function guarantees this
only for inputs free of square brackets, because its character class omits
`[` and `]`. -/
theorem c1_escape_no_unescaped_reserved :
    (∀ s : String, (∃ c ∈ s.data, reservedMd2 c = true) →
        noUnescapedMd2 (BotJs.escapeMarkdown (some s)).data = true)
  ∧ (∀ s : String, (∀ c ∈ s.data, c ≠ Char.ofNat 91 ∧ c ≠ Char.ofNat 93) →
        noUnescapedMd2 (Part001.escapeMarkdown (some s)).data = true) := by
  constructor
  · intro s _
    by_cases hs : s = ""
    · subst hs; rfl
    · show noUnescapedMd2
          (if s = "" then "" else String.mk (escapeBody BotJs.escapeChars s.data)).data = true
      rw [if_neg hs]
      exact escapeBody_safe _ _ (fun c _ hc => reservedMd2_mem_botjs c hc)
  · intro s hbr
    by_cases hs : s = ""
    · subst hs; rfl
    · show noUnescapedMd2
          (if s = "" then "" else String.mk (escapeBody Part001.escapeChars s.data)).data = true
      rw [if_neg hs]
      exact escapeBody_safe _ _
        (fun c hcs hc => reservedMd2_mem_p1 c hc (hbr c hcs).1 (hbr c hcs).2)

/-- C1 witness: the input consisting of an underscore contains a reserved
character, and the `bot.js` escaped output has no unescaped reserved
character. -/
theorem c1_escape_witness :
    (∃ c ∈ ("_abc" : String).data, reservedMd2 c = true) ∧
    noUnescapedMd2 (BotJs.escapeMarkdown (some ("_abc"))).data = true :=
  ⟨by decide, c1_escape_no_unescaped_reserved.1 ("_abc") (by decide)⟩

/-- C1 counterexample: the input `[` contains a reserved MarkdownV2
character, yet the `part_001` escaping function returns it unescaped, so its
output does contain an unescaped reserved character. -/
theorem c1_escape_counterexample :
    (∃ c ∈ lbString.data, reservedMd2 c = true) ∧
    noUnescapedMd2 (Part001.escapeMarkdown (some lbString)).data = false := by
  decide

/-- C9: on null/undefined input (modelled as `none`) and on the empty
string, both escaping functions return the empty string. -/
theorem c9_escape_empty_inputs :
    BotJs.escapeMarkdown none = "" ∧ BotJs.escapeMarkdown (some ("")) = ""
  ∧ Part001.escapeMarkdown none = "" ∧ Part001.escapeMarkdown (some ("")) = "" := by
  decide

theorem uniqueDates_foldl_mem (rs : List Receipt) :
    ∀ (acc : List String) (s : String),
      (s ∈ rs.foldl
          (fun a r =>
            if dateKey r.received_at ∈ a then a else a ++ [dateKey r.received_at])
          acc
        ↔ s ∈ acc ∨ ∃ r ∈ rs, dateKey r.received_at = s) := by
  induction rs with
  | nil => intro acc s; simp
  | cons r rs ih =>
    intro acc s
    rw [List.foldl_cons, ih]
    by_cases h : dateKey r.received_at ∈ acc
    · rw [if_pos h]
      constructor
      · rintro (hs | ⟨x, hx, he⟩)
        · exact Or.inl hs
        · exact Or.inr ⟨x, List.mem_cons_of_mem _ hx, he⟩
      · rintro (hs | ⟨x, hx, he⟩)
        · exact Or.inl hs
        · rcases List.mem_cons.mp hx with rfl | hx2
          · exact Or.inl (he ▸ h)
          · exact Or.inr ⟨x, hx2, he⟩
    · rw [if_neg h]
      constructor
      · rintro (hs | ⟨x, hx, he⟩)
        · rcases List.mem_append.mp hs with h1 | h2
          · exact Or.inl h1
          · exact Or.inr ⟨r, List.mem_cons_self _ _, (List.mem_singleton.mp h2).symm⟩
        · exact Or.inr ⟨x, List.mem_cons_of_mem _ hx, he⟩
      · rintro (hs | ⟨x, hx, he⟩)
        · exact Or.inl (List.mem_append.mpr (Or.inl hs))
        · rcases List.mem_cons.mp hx with rfl | hx2
          · exact Or.inl (List.mem_append.mpr (Or.inr (List.mem_singleton.mpr he.symm)))
          · exact Or.inr ⟨x, hx2, he⟩

/-- C3: the date-listing operation produces exactly the `DD/MM/YY` Yangon
renderings of the stored timestamps (a key is listed iff some stored receipt
renders to it), and a receipt received at 2024-01-05T10:00:00 Asia/Yangon
yields the bucket key "05/01/24". -/
theorem c3_date_bucket_key :
    (∀ (rs : List Receipt) (s : String),
        s ∈ uniqueDates rs ↔ ∃ r ∈ rs, dateKey r.received_at = s)
  ∧ uniqueDates [sampleReceipt] = ["05/01/24"] := by
  constructor
  · intro rs s
    rw [uniqueDates, uniqueDates_foldl_mem]
    simp
  · decide

/-- C2: for every stored receipt set and every day key (day `d`, month `m`,
two-digit year `yy`), the date-detail fetch returns a permutation of exactly
the receipts whose `received_at` lies between the Yangon day start and day
end (inclusive), sorted ascending by `received_at`; hence a receipt is
replayed iff it is stored and falls in that day range. -/
theorem c2_date_detail_query (db : List Receipt) (d m yy : Nat) :
    (receiptDateFetch db d m yy).Perm
      (db.filter fun r =>
        decide (dayStartMs d m yy ≤ r.received_at ∧ r.received_at ≤ dayEndMs d m yy))
  ∧ List.Sorted byTime (receiptDateFetch db d m yy)
  ∧ (∀ r : Receipt, r ∈ receiptDateFetch db d m yy ↔
        r ∈ db ∧ dayStartMs d m yy ≤ r.received_at ∧ r.received_at ≤ dayEndMs d m yy) := by
  refine ⟨List.perm_insertionSort _ _, List.sorted_insertionSort _ _, ?_⟩
  intro r
  rw [receiptDateFetch, List.Perm.mem_iff (List.perm_insertionSort _ _), List.mem_filter]
  simp

/-- C4: for every call of the Supabase `saveConnection`, a failed backing
write (returned error or thrown exception) yields `false` and leaves the
in-memory connected-group value unchanged; the value is mutated (set to the
requested group id) exactly when the write succeeds. -/
theorem c4_save_write_failure (w : WriteOutcome) (g cur : Option String) :
    (w ≠ WriteOutcome.ok → BotJs.saveConnection w g cur = (false, cur))
  ∧ BotJs.saveConnection WriteOutcome.ok g cur = (true, g) := by
  cases w <;> simp [BotJs.saveConnection]

/-- C4 witness: a failing write at a concrete input returns failure and
keeps the stored connection. -/
theorem c4_save_write_failure_witness :
    BotJs.saveConnection WriteOutcome.dbError (some ("g")) none = (false, none) :=
  (c4_save_write_failure WriteOutcome.dbError (some ("g")) none).1 (by decide)

/-- C5: a command from a sender other than the owner changes no state and
produces no reply: the `bot.js` `isOwner` middleware skips any gated handler
outright, so the gated `/connectgp` and `/disconnect` steps leave the state
(connected group and stored receipts) unchanged with an empty effect list,
and the `part_000` inline-checked handlers do the same. -/
theorem c5_non_owner_no_effect (ownerId senderId : Int) (h : senderId ≠ ownerId) :
    (∀ (next : BotState → BotState × List Eff) (st : BotState),
        BotJs.isOwnerGate ownerId senderId next st = (st, []))
  ∧ (∀ (st : BotState) (text : String) (w : WriteOutcome),
        BotJs.step ownerId st (Event.connectgp senderId text w) = (st, []))
  ∧ (∀ (st : BotState) (w : WriteOutcome),
        BotJs.step ownerId st (Event.disconnect senderId w) = (st, []))
  ∧ (∀ (st : Option String) (text : String),
        Part000.connectgp ownerId senderId text st = (st, []))
  ∧ (∀ (st : Option String), Part000.disconnect ownerId senderId st = (st, [])) := by
  refine ⟨?_, ?_, ?_, ?_, ?_⟩ <;> intros <;>
    simp [BotJs.step, BotJs.isOwnerGate, Part000.connectgp, Part000.disconnect, h]

/-- C5 witness: sender 2 with owner 1 leaves concrete states untouched and
replies nothing. -/
theorem c5_non_owner_no_effect_witness :
    BotJs.step 1 st1 (Event.connectgp 2 ("/connectgp gg") WriteOutcome.ok) = (st1, [])
  ∧ Part000.disconnect 1 2 (some ("g")) = (some ("g"), []) :=
  ⟨(c5_non_owner_no_effect 1 2 (by decide)).2.1 st1 ("/connectgp gg") WriteOutcome.ok,
   (c5_non_owner_no_effect 1 2 (by decide)).2.2.2.2 (some ("g"))⟩

theorem run_cons (ownerId : Int) (st : BotState) (e : Event) (es : List Event) :
    BotJs.run ownerId st (e :: es) =
      ((BotJs.run ownerId (BotJs.step ownerId st e).1 es).1,
       (e, (BotJs.step ownerId st e).2) ::
         (BotJs.run ownerId (BotJs.step ownerId st e).1 es).2) := rfl

theorem step_preserves_disconnected (ownerId : Int) (st : BotState) (e : Event)
    (hst : st.connectedGroupId = none) (he : connectSucceeds ownerId e = false) :
    (BotJs.step ownerId st e).1.connectedGroupId = none := by
  cases e with
  | connectgp s text w =>
    simp only [BotJs.step, BotJs.isOwnerGate]
    by_cases hso : s = ownerId
    · rw [if_pos hso]
      simp only [BotJs.connectgpBody]
      by_cases ha : parseArgs text = ""
      · rw [if_pos ha]; exact hst
      · rw [if_neg ha]
        have hw : w ≠ WriteOutcome.ok := by
          intro hwe
          subst hwe
          subst hso
          simp [connectSucceeds, ha] at he
        cases w with
        | ok => exact absurd rfl hw
        | dbError => simp [BotJs.saveConnection, hst]
        | thrown => simp [BotJs.saveConnection, hst]
    · rw [if_neg hso]; exact hst
  | disconnect s w =>
    simp only [BotJs.step, BotJs.isOwnerGate]
    by_cases hso : s = ownerId
    · rw [if_pos hso]
      simp only [BotJs.disconnectBody]
      cases w <;> simp [BotJs.saveConnection, hst]
    · rw [if_neg hso]; exact hst
  | photo u f c t iok sok =>
    simp [BotJs.step, BotJs.photoHandler, hst]

theorem photo_step_disconnected (ownerId : Int) (st : BotState) (u : UserInfo)
    (f : String) (c : Option String) (t : Int) (iok sok : Bool)
    (hst : st.connectedGroupId = none) :
    BotJs.step ownerId st (Event.photo u f c t iok sok)
      = (st, [Eff.reply notConnectedMsg]) := by
  simp [BotJs.step, BotJs.photoHandler, hst]

theorem run_disconnected_photo_replies (ownerId : Int) (es : List Event) :
    ∀ (st : BotState), st.connectedGroupId = none →
      (∀ e ∈ es, connectSucceeds ownerId e = false) →
      ∀ pr ∈ (BotJs.run ownerId st es).2, isPhotoEvent pr.1 = true →
        pr.2 = [Eff.reply notConnectedMsg] := by
  induction es with
  | nil =>
    intro st _ _ pr hpr
    simp [BotJs.run] at hpr
  | cons e es ih =>
    intro st hst hes pr hpr hph
    rw [run_cons] at hpr
    rcases List.mem_cons.mp hpr with rfl | htail
    · cases e with
      | photo u f c t iok sok =>
        rw [photo_step_disconnected ownerId st u f c t iok sok hst]
      | connectgp s text w => simp [isPhotoEvent] at hph
      | disconnect s w => simp [isPhotoEvent] at hph
    · exact ih (BotJs.step ownerId st e).1
        (step_preserves_disconnected ownerId st e hst (hes e (List.mem_cons_self _ _)))
        (fun x hx => hes x (List.mem_cons_of_mem _ hx)) pr htail hph

/-- C6: after a successful `/disconnect` by the owner (`save(null)`), as
long as no later event is a successful owner `/connectgp` with a non-empty
group argument, every photo event in the run is answered with the
not-connected reply and produces no forward to any group. -/
theorem c6_disconnect_disables_forwarding (ownerId : Int) (st : BotState)
    (rest : List Event)
    (hrest : ∀ e ∈ rest, connectSucceeds ownerId e = false) :
    ∀ pr ∈ (BotJs.run ownerId st
        (Event.disconnect ownerId WriteOutcome.ok :: rest)).2,
      isPhotoEvent pr.1 = true →
        pr.2 = [Eff.reply notConnectedMsg] ∧ hasSendPhoto pr.2 = false := by
  intro pr hpr hph
  rw [run_cons] at hpr
  rcases List.mem_cons.mp hpr with rfl | htail
  · simp [isPhotoEvent] at hph
  · have hd : (BotJs.step ownerId st
        (Event.disconnect ownerId WriteOutcome.ok)).1.connectedGroupId = none := by
      simp [BotJs.step, BotJs.isOwnerGate, BotJs.disconnectBody, BotJs.saveConnection]
    have h2 := run_disconnected_photo_replies ownerId rest _ hd hrest pr htail hph
    exact ⟨h2, by rw [h2]; rfl⟩

/-- C6 witness: in a concrete run starting connected, a photo after the
disconnect gets the not-connected reply and no forward. -/
theorem c6_disconnect_disables_forwarding_witness :
    (ephoto0, ([Eff.reply notConnectedMsg] : List Eff)).2 = [Eff.reply notConnectedMsg]
  ∧ hasSendPhoto (ephoto0, ([Eff.reply notConnectedMsg] : List Eff)).2 = false :=
  c6_disconnect_disables_forwarding 1 st1 [ephoto0] (by decide)
    (ephoto0, [Eff.reply notConnectedMsg]) (by decide) (by decide)

/-- C7: in the Supabase variant, when the receipts insert fails on a photo
event with a connected group, the handler replies the error message to the
sender and returns: the only effects are the failed insert and that reply,
there is no forward, and the state is unchanged. -/
theorem c7_persist_failure_aborts (st : BotState) (g : String) (u : UserInfo)
    (f : String) (c : Option String) (t : Int) (sendOk : Bool)
    (hc : st.connectedGroupId = some g) :
    BotJs.photoHandler u f c t false sendOk st
      = (st, [Eff.insertReceipt (mkReceipt u f c t) false, Eff.reply persistErrorMsg])
  ∧ hasSendPhoto (BotJs.photoHandler u f c t false sendOk st).2 = false := by
  have h1 : BotJs.photoHandler u f c t false sendOk st
      = (st, [Eff.insertReceipt (mkReceipt u f c t) false, Eff.reply persistErrorMsg]) := by
    simp [BotJs.photoHandler, hc]
  exact ⟨h1, by rw [h1]; rfl⟩

/-- C7 witness: concrete insert failure replies the error and does not
forward. -/
theorem c7_persist_failure_aborts_witness :
    BotJs.photoHandler u0 ("f1") none 0 false true st1
      = (st1, [Eff.insertReceipt (mkReceipt u0 ("f1") none 0) false,
               Eff.reply persistErrorMsg])
  ∧ hasSendPhoto (BotJs.photoHandler u0 ("f1") none 0 false true st1).2 = false :=
  c7_persist_failure_aborts st1 ("g") u0 ("f1") none 0 true rfl

/-- C8 (amended): with the bot connected and the external calls succeeding,
the Supabase variant performs, in order, the receipt insert, then the
`sendPhoto` to the group, then the acknowledgement reply; the `part_001`
variant has no persistence step and sends the acknowledgement to the sender
before the forward to the group. -/
theorem c8_photo_effect_order (st : BotState) (g : String) (u : UserInfo)
    (f : String) (c : Option String) (t : Int)
    (hc : st.connectedGroupId = some g) :
    (BotJs.photoHandler u f c t true true st).2
      = [Eff.insertReceipt (mkReceipt u f c t) true,
         Eff.sendPhoto g f (BotJs.buildCaption u t c) true,
         Eff.reply ackMsg]
  ∧ (Part001.photoHandler u f t true (some g)).2
      = [Eff.reply ackMsg,
         Eff.sendPhoto g f (Part001.buildCaption u t) true] := by
  constructor
  · simp [BotJs.photoHandler, hc]
  · rfl

/-- C8 witness: the two effect orders at a concrete connected photo event. -/
theorem c8_photo_effect_order_witness :
    (BotJs.photoHandler u0 ("f1") none 0 true true st1).2
      = [Eff.insertReceipt (mkReceipt u0 ("f1") none 0) true,
         Eff.sendPhoto ("g") ("f1") (BotJs.buildCaption u0 0 none) true,
         Eff.reply ackMsg]
  ∧ (Part001.photoHandler u0 ("f1") 0 true (some ("g"))).2
      = [Eff.reply ackMsg,
         Eff.sendPhoto ("g") ("f1") (Part001.buildCaption u0 0) true] :=
  c8_photo_effect_order st1 ("g") u0 ("f1") none 0 rfl

/-- C8 counterexample: at a concrete connected photo event, the `part_001`
handler's effect list starts with the acknowledgement reply and contains no
persistence step at all, so the claimed order (persist first, then forward,
then acknowledge) is false for that cited handler. -/
theorem c8_photo_effect_order_counterexample :
    (Part001.photoHandler u0 ("f1") 0 true (some ("g"))).2
      = [Eff.reply ackMsg,
         Eff.sendPhoto ("g") ("f1") (Part001.buildCaption u0 0) true]
  ∧ ¬ ∃ r ok rest, (Part001.photoHandler u0 ("f1") 0 true (some ("g"))).2
      = Eff.insertReceipt r ok :: rest := by
  constructor
  · rfl
  · rintro ⟨r, ok, rest, h⟩
    simp [Part001.photoHandler] at h

/-- C10: in the Supabase variant, when the insert succeeds and the group
forward then fails, the receipt stays persisted (appended to the stored
receipts) and the sender receives no reply at all (neither acknowledgement
nor error): the catch block only logs. -/
theorem c10_forward_failure_silent (st : BotState) (g : String) (u : UserInfo)
    (f : String) (c : Option String) (t : Int)
    (hc : st.connectedGroupId = some g) :
    (BotJs.photoHandler u f c t true false st).1.receipts
        = st.receipts ++ [mkReceipt u f c t]
  ∧ hasReply (BotJs.photoHandler u f c t true false st).2 = false
  ∧ (BotJs.photoHandler u f c t true false st).2
      = [Eff.insertReceipt (mkReceipt u f c t) true,
         Eff.sendPhoto g f (BotJs.buildCaption u t c) false] := by
  simp [BotJs.photoHandler, hc, hasReply]

/-- C10 witness: concrete forward failure keeps the stored receipt and
sends the user nothing. -/
theorem c10_forward_failure_silent_witness :
    (BotJs.photoHandler u0 ("f1") none 0 true false st1).1.receipts
        = st1.receipts ++ [mkReceipt u0 ("f1") none 0]
  ∧ hasReply (BotJs.photoHandler u0 ("f1") none 0 true false st1).2 = false
  ∧ (BotJs.photoHandler u0 ("f1") none 0 true false st1).2
      = [Eff.insertReceipt (mkReceipt u0 ("f1") none 0) true,
         Eff.sendPhoto ("g") ("f1") (BotJs.buildCaption u0 0 none) false] :=
  c10_forward_failure_silent st1 ("g") u0 ("f1") none 0 rfl
